import Mathlib

/-
  Verification of the AutoClose document-processing pipeline
  (intake → optional vision/OCR → classification → integration → summary).

  Shallow embedding of the orchestration core:
    - utils/schemas.py         : enums, result models, WorkflowState
    - agents/intake_agent.py   : IntakeAgent.process
    - agents/vision_agent.py   : VisionAgent.process
    - agents/classification_agent.py : ClassificationAgent.process / _classify
    - agents/mcp_agent.py      : MCPAgent.process
    - agents/summary_agent.py  : SummaryAgent.process
    - agents/orchestrator.py   : _after_intake and the langgraph pipeline
    - agents/workflow_runner.py: run_workflow_sync (sequential mode)
    - api/routes.py            : submit endpoint

  External collaborators (file system, OCR engine, LLM client, vector
  index, relational store, archival writer, webhook) are modelled as
  oracle records; everything the repository's own code does with their
  results is translated faithfully.  Python floats are modelled as exact
  rationals; machine-float rounding never decides any claim below.
-/

set_option maxRecDepth 8000

namespace AutoClose

/-! ## Data model (utils/schemas.py) -/

inductive DocumentType
  | pdf
  | image
  | text
deriving DecidableEq, Repr

def DocumentType.value : DocumentType → String
  | .pdf => "pdf"
  | .image => "image"
  | .text => "text"

inductive TransactionCategory
  | revenue
  | expense
  | asset
  | liability
  | equity
  | unknown
deriving DecidableEq, Repr

def TransactionCategory.value : TransactionCategory → String
  | .revenue => "revenue"
  | .expense => "expense"
  | .asset => "asset"
  | .liability => "liability"
  | .equity => "equity"
  | .unknown => "unknown"

inductive ProcessingStatus
  | pending
  | in_progress
  | completed
  | failed
deriving DecidableEq, Repr

def ProcessingStatus.value : ProcessingStatus → String
  | .pending => "pending"
  | .in_progress => "in_progress"
  | .completed => "completed"
  | .failed => "failed"

/-- JSON-shaped values as produced by `json.loads` (Python `None`, `bool`,
numbers, `str`, `list`, `dict`).  Numbers are exact rationals. -/
inductive JVal
  | null
  | bool (b : Bool)
  | num (q : ℚ)
  | str (s : String)
  | arr (xs : List JVal)
  | obj (kvs : List (String × JVal))

/-- Python truthiness of a JSON value (`None`, `False`, `0`, `""`, `[]`,
`\x7b\x7d` are falsy). -/
def JVal.truthy : JVal → Bool
  | .null => false
  | .bool b => b
  | .num q => q ≠ 0
  | .str s => !s.isEmpty
  | .arr xs => !xs.isEmpty
  | .obj kvs => !kvs.isEmpty

/-- `d.get(k)` on a JSON object: `none` when the key is missing. -/
def jget (kvs : List (String × JVal)) (k : String) : Option JVal :=
  (kvs.find? (fun p => p.1 == k)).map (·.2)

/-- Python `d.get(k) is not None`: missing keys and JSON `null` both read
back as Python `None`. -/
def jNotNone : Option JVal → Bool
  | none => false
  | some .null => false
  | some _ => true

/-- Truthiness of `d.get(k)` (missing key → `None` → falsy). -/
def jTruthy : Option JVal → Bool
  | none => false
  | some v => v.truthy

/-- Truthiness of an optional Python string (`None` and `""` are falsy). -/
def optTruthy : Option String → Bool
  | none => false
  | some s => !s.isEmpty

structure IntakeResult where
  document_id : String
  document_type : DocumentType
  raw_content : Option String := none
  file_path : Option String := none
  metadata : List (String × JVal) := []
  requires_vision : Bool := false

structure VisionResult where
  document_id : String
  extracted_text : String
  structured_data : List (String × JVal) := []
  confidence_score : ℚ := 0
  metadata : List (String × JVal) := []

structure ClassificationResult where
  document_id : String
  category : TransactionCategory
  subcategory : Option String := none
  amount : Option ℚ := none
  description : Option String := none
  confidence : ℚ := 0
  reasoning : Option String := none
  embeddings_added : Bool := false

structure MCPActionResult where
  document_id : String
  database_recorded : Bool := false
  file_stored : Bool := false
  api_called : Bool := false
  notification_sent : Bool := false
  details : List (String × JVal) := []

structure SummaryResult where
  document_id : String
  financial_summary : String
  user_prompt : Option String := none
  metadata : List (String × JVal) := []

structure WorkflowState where
  job_id : String
  document_id : String
  file_path : Option String := none
  raw_content : Option String := none
  document_type : DocumentType := .text
  user_prompt : Option String := none
  intake_result : Option IntakeResult := none
  vision_result : Option VisionResult := none
  classification_result : Option ClassificationResult := none
  mcp_result : Option MCPActionResult := none
  summary_result : Option SummaryResult := none
  current_step : String := "intake"
  status : ProcessingStatus := .pending
  error : Option String := none
  messages : List String := []
  context_for_next_agent : String := ""

/-! ## Stage updates and merging

Each agent's `process` returns a mapping of field names to new values
which the caller shallow-merges onto the current state
(`WorkflowState(**\x7b**ws.model_dump(), **up\x7d)` / langgraph key merge).
A field is `some v` when the returned dict contains that key. -/

structure Update where
  intake_result : Option IntakeResult := none
  vision_result : Option VisionResult := none
  classification_result : Option ClassificationResult := none
  mcp_result : Option MCPActionResult := none
  summary_result : Option SummaryResult := none
  current_step : Option String := none
  status : Option ProcessingStatus := none
  error : Option String := none
  messages : Option (List String) := none
  context_for_next_agent : Option String := none

def mergeField {α : Type} : Option α → α → α
  | some v, _ => v
  | none, old => old

def mergeSlot {α : Type} : Option α → Option α → Option α
  | some v, _ => some v
  | none, old => old

def applyUpdate (s : WorkflowState) (u : Update) : WorkflowState :=
  { s with
    intake_result := mergeSlot u.intake_result s.intake_result
    vision_result := mergeSlot u.vision_result s.vision_result
    classification_result := mergeSlot u.classification_result s.classification_result
    mcp_result := mergeSlot u.mcp_result s.mcp_result
    summary_result := mergeSlot u.summary_result s.summary_result
    current_step := mergeField u.current_step s.current_step
    status := mergeField u.status s.status
    error := mergeSlot u.error s.error
    messages := mergeField u.messages s.messages
    context_for_next_agent := mergeField u.context_for_next_agent s.context_for_next_agent }

/-! ## Intake stage (agents/intake_agent.py) -/

/-- External file system and PDF extractors.  `extractPdf` is
`IntakeAgent._extract_pdf`'s interaction with pdfplumber/pypdf:
`.ok (text, pages)` when either extractor ran (text may be empty),
`.error e` when both extractors raised. -/
structure FileSystem where
  pathExists : String → Bool
  readText : String → String
  extractPdf : String → Except String (String × Nat)

/-- `_extract_pdf`: success gives the joined page text and a pages count;
a double failure returns `""` with an error entry in the metadata. -/
def extractPdfResult (fs : FileSystem) (p : String) : String × List (String × JVal) :=
  match fs.extractPdf p with
  | .ok (t, pages) => (t, [("pages", .num pages)])
  | .error e => ("", [("error", .str e)])

def visionPlaceholder (dt : DocumentType) : String :=
  "[Vision required: " ++ dt.value ++ "]"

/-- The success-path return dict of `IntakeAgent.process` (builds the
`IntakeResult` and routes on `requires_vision`). -/
def intakeSuccess (s : WorkflowState) (extracted : Option String) (rv : Bool)
    (meta : List (String × JVal)) : Update :=
  { intake_result := some
      { document_id := s.document_id
        document_type := s.document_type
        raw_content := extracted
        file_path := s.file_path
        metadata := meta
        requires_vision := rv }
    current_step := some (if rv then "vision" else "classification")
    context_for_next_agent := some
      (match extracted with
       | some e => if e.isEmpty then visionPlaceholder s.document_type else e
       | none => visionPlaceholder s.document_type)
    status := some .in_progress
    messages := some (s.messages ++ ["Intake done"]) }

/-- `IntakeAgent.process`. -/
def intakeProcess (fs : FileSystem) (s : WorkflowState) : Update :=
  if optTruthy s.raw_content ∧ s.document_type = .text then
    intakeSuccess s s.raw_content false []
  else if optTruthy s.file_path then
    if !fs.pathExists (s.file_path.getD "") then
      { status := some .failed
        error := some ("File not found: " ++ s.file_path.getD "")
        messages := some (s.messages ++ ["Intake failed"]) }
    else
      match s.document_type with
      | .pdf =>
        if (extractPdfResult fs (s.file_path.getD "")).1.isEmpty then
          intakeSuccess s (some (extractPdfResult fs (s.file_path.getD "")).1) true
            ((extractPdfResult fs (s.file_path.getD "")).2 ++ [("fallback_vision", .bool true)])
        else
          intakeSuccess s (some (extractPdfResult fs (s.file_path.getD "")).1) false
            (extractPdfResult fs (s.file_path.getD "")).2
      | .image =>
        intakeSuccess s none true [("requires_ocr", .bool true)]
      | .text =>
        intakeSuccess s (some (fs.readText (s.file_path.getD ""))) false []
  else
    intakeSuccess s none false []

/-! ## Branch rule (agents/orchestrator.py `_after_intake`) -/

def afterIntake (s : WorkflowState) : String :=
  if s.status = .failed then "classification"
  else
    match s.intake_result with
    | some ir => if ir.requires_vision then "vision" else "classification"
    | none => "classification"

/-! ## Vision stage (agents/vision_agent.py) -/

/-- Code-fence scrubbing applied to every model response before JSON
parsing: `raw.replace("```json", "").replace("```", "").strip()` on the
stripped response text. -/
def stripFences (r : String) : String :=
  (((r.trim).replace "```json" "").replace "```" "").trim

/-- External collaborators of the vision stage.  `ocr` is
`VisionAgent._ocr`, which catches every fault internally and returns
`("", 0)` in that case, so it is total.  `llm` is the extraction model
call; `parseJson` is `json.loads` restricted to the model contract of
returning a JSON object (`none` = parse failure). -/
structure VisionOracle where
  ocr : String → String × ℚ
  llm : String → Except String String
  parseJson : String → Option (List (String × JVal))

def EXTRACT_PROMPT : String :=
  "Extract accounting data. JSON only: \x7b\"amount\":number|null,\"date\":str|null,\"vendor\":str|null,\"description\":str|null,\"category_hint\":str|null\x7d\nText:\n"

/-- `VisionAgent._extract`: single model call, fence scrub, JSON parse;
any failure degrades to `\x7b"raw": text[:300]\x7d`. -/
def visionExtract (o : VisionOracle) (text : String) : List (String × JVal) :=
  match o.llm (EXTRACT_PROMPT ++ text.take 4000) with
  | .error _ => [("raw", .str (text.take 300))]
  | .ok r =>
    match o.parseJson (stripFences r) with
    | some kvs => kvs
    | none => [("raw", .str (text.take 300))]

/-- `VisionAgent.process`. -/
def visionProcess (o : VisionOracle) (s : WorkflowState) : Update :=
  match s.intake_result with
  | none => { status := some .failed, error := some "No intake" }
  | some intake =>
    let text₀ := intake.raw_content.getD ""
    let (text, conf) :=
      if intake.requires_vision ∧ optTruthy intake.file_path then
        o.ocr (intake.file_path.getD "")
      else (text₀, 1)
    if text.isEmpty then { status := some .failed, error := some "No content" }
    else
      { vision_result := some
          { document_id := intake.document_id
            extracted_text := text
            structured_data := visionExtract o text
            confidence_score := conf
            metadata := [("requires_vision", .bool intake.requires_vision)] }
        current_step := some "classification"
        context_for_next_agent := some text
        status := some .in_progress
        messages := some (s.messages ++ ["Vision done"]) }

/-! ## Classification stage (agents/classification_agent.py) -/

/-- A langchain `Document` as returned by the vector store search. -/
structure SimilarDoc where
  page_content : String
  metadata : List (String × JVal)

/-- External collaborators of the classification stage: vector search
(`self._vs.search(query, k=3)`), model call, `json.loads` (object
contract, as above), and vector `add`, which may raise
(`except Exception: pass` in the caller). -/
structure ClassOracle where
  search : String → List SimilarDoc
  llm : String → Except String String
  parseJson : String → Option (List (String × JVal))
  add : String → String → List (String × JVal) → Except String Unit

def CLASSIFY_FULL : String :=
  "Classify SMB transaction. JSON: \x7b\"category\":\"revenue|expense|asset|liability|equity\",\"subcategory\":str,\"amount\":float|null,\"description\":str,\"confidence\":0-1,\"reasoning\":str\x7d\nContent:\n"

/-- Prompt-text rendering of a metadata value (`f"\x7bm.get(k, q)\x7d"`).
The store only ever writes `null`, numbers and strings here. -/
def pyStr : JVal → String
  | .null => "None"
  | .bool true => "True"
  | .bool false => "False"
  | .num q => if q.den = 1 then toString q.num else toString q
  | .str s => s
  | .arr _ => "[...]"
  | .obj _ => "\x7b...\x7d"

def pyStrOpt : Option JVal → String
  | none => "?"
  | some v => pyStr v

/-- `ClassificationAgent._fmt_similar`. -/
def fmtSimilar (docs : List SimilarDoc) : String :=
  let parts := (docs.take 3).map (fun d =>
    "cat=" ++ pyStrOpt (jget d.metadata "category") ++ " amt=" ++
      pyStrOpt (jget d.metadata "amount") ++ " | " ++ d.page_content.take 200)
  if parts.isEmpty then "" else String.intercalate "\n" parts

/-- The literal fallback dict used by `_classify` when the model call or
the JSON parse fails. -/
def defaultClassifyData (content : String) : List (String × JVal) :=
  [("category", .str "unknown"), ("subcategory", .null), ("amount", .null),
   ("description", .str (content.take 150)), ("confidence", .num 0),
   ("reasoning", .str "parse err")]

/-- Python `str.lower()` on the ASCII category labels, as a character
map (semantically `String.toLower`, stated this way so that concrete
instances evaluate by kernel reduction). -/
def pyLower (s : String) : String :=
  ⟨s.data.map Char.toLower⟩

/-- `(data.get("category") or "unknown").lower()`: falsy values fall back
to `"unknown"`; truthy non-strings raise `AttributeError` at `.lower()`. -/
def categoryVal : Option JVal → Except String String
  | none => .ok "unknown"
  | some .null => .ok "unknown"
  | some (.str s) => .ok (pyLower (if s.isEmpty then "unknown" else s))
  | some (.bool false) => .ok "unknown"
  | some (.bool true) => .error "AttributeError"
  | some (.num q) => if q = 0 then .ok "unknown" else .error "AttributeError"
  | some (.arr []) => .ok "unknown"
  | some (.arr (_ :: _)) => .error "AttributeError"
  | some (.obj []) => .ok "unknown"
  | some (.obj (_ :: _)) => .error "AttributeError"

/-- `next((c for c in TransactionCategory if c.value == cat_val), UNKNOWN)`. -/
def matchCat (v : String) : TransactionCategory :=
  if v = "revenue" then .revenue
  else if v = "expense" then .expense
  else if v = "asset" then .asset
  else if v = "liability" then .liability
  else if v = "equity" then .equity
  else if v = "unknown" then .unknown
  else .unknown

/-- Comma stripping, `str(amt).replace(",", "")`. -/
def stripCommas (s : String) : List Char :=
  s.toList.filter (fun c => c ≠ ',')

/-- Leftmost match of `[\d,]+\.?\d*` on a comma-free character list:
the first digit starts the match; `[\d,]+` greedily takes the digit run,
then an optional dot and a trailing digit run. -/
def scanNumeric : List Char → Option (List Char × List Char)
  | [] => none
  | c :: rest =>
    if c.isDigit then
      let intRun := (c :: rest).takeWhile Char.isDigit
      let afterInt := (c :: rest).dropWhile Char.isDigit
      match afterInt with
      | '.' :: r₂ => some (intRun, r₂.takeWhile Char.isDigit)
      | _ => some (intRun, [])
    else scanNumeric rest

def digitsToNat (cs : List Char) : Nat :=
  cs.foldl (fun acc c => acc * 10 + (c.toNat - 48)) 0

/-- `float` of the matched numeric substring, as an exact rational. -/
def matchedToRat (intPart fracPart : List Char) : ℚ :=
  (digitsToNat intPart : ℚ) + (digitsToNat fracPart : ℚ) / ((10 : ℚ) ^ fracPart.length)

/-- The string branch of the amount logic:
`re.search(r"[\d,]+\.?\d*", s.replace(",", ""))`, then `float` of the
match, or `None` when there is no match. -/
def scanAmount (s : String) : Option ℚ :=
  match scanNumeric (stripCommas s) with
  | some (ip, fp) => some (matchedToRat ip fp)
  | none => none

/-- The full amount-parsing logic of `_classify` over `data.get("amount")`:
strings are scanned; non-`None` non-strings go through `float(...)` with
`TypeError`/`ValueError` mapped to `None`; `None` stays `None`. -/
def parseAmount : Option JVal → Option ℚ
  | none => none
  | some .null => none
  | some (.str s) => scanAmount s
  | some (.num q) => some q
  | some (.bool b) => some (if b then 1 else 0)
  | some (.arr _) => none
  | some (.obj _) => none

/-- Decimal-literal subset of Python `float(str)`, exact over rationals;
anything outside the plain `[sign] digits [. digits]` grammar is a
`ValueError`. -/
def pyFloatOfString (s : String) : Option ℚ :=
  let t := s.trim.toList
  let (sign, body) : ℚ × List Char :=
    match t with
    | '-' :: r => (-1, r)
    | '+' :: r => (1, r)
    | r => (1, r)
  let ip := body.takeWhile Char.isDigit
  let rest := body.dropWhile Char.isDigit
  match rest with
  | [] => if ip.isEmpty then none else some (sign * digitsToNat ip)
  | '.' :: r =>
    let fp := r.takeWhile Char.isDigit
    if r.dropWhile Char.isDigit ≠ [] then none
    else if ip.isEmpty ∧ fp.isEmpty then none
    else some (sign * matchedToRat ip fp)
  | _ => none

/-- `float(data.get("confidence", 0.5))`: missing key defaults to `0.5`;
non-numeric values raise out of the stage (the try/except in `_classify`
only wraps the model call and the JSON parse). -/
def confidenceVal : Option JVal → Except String ℚ
  | none => .ok (1 / 2)
  | some (.num q) => .ok q
  | some (.bool b) => .ok (if b then 1 else 0)
  | some (.str s) =>
    match pyFloatOfString s with
    | some q => .ok q
    | none => .error "ValueError"
  | some .null => .error "TypeError"
  | some (.arr _) => .error "TypeError"
  | some (.obj _) => .error "TypeError"

/-- Pydantic validation of a `str | None` field: JSON numbers, booleans,
arrays and objects are rejected. -/
def optStrField : Option JVal → Except String (Option String)
  | none => .ok none
  | some .null => .ok none
  | some (.str s) => .ok (some s)
  | some _ => .error "ValidationError"

/-- `ClassificationAgent._classify`. -/
def classifyE (o : ClassOracle) (document_id content prompt similar : String) :
    Except String ClassificationResult := do
  let full := prompt ++ content.take 3000 ++ "\n\nSimilar:\n" ++ similar.take 500
  let data : List (String × JVal) :=
    match o.llm full with
    | .error _ => defaultClassifyData content
    | .ok r =>
      match o.parseJson (stripFences r) with
      | some kvs => kvs
      | none => defaultClassifyData content
  let catVal ← categoryVal (jget data "category")
  let category := matchCat catVal
  let amount := parseAmount (jget data "amount")
  let subcategory ← optStrField (jget data "subcategory")
  let description ← optStrField (jget data "description")
  let confidence ← confidenceVal (jget data "confidence")
  let reasoning ← optStrField (jget data "reasoning")
  .ok { document_id, category, subcategory, amount, description,
        confidence, reasoning, embeddings_added := false }

/-- Metadata value stored for the indexed amount
(`"amount": classification.amount`, which may be `None`). -/
def amountMeta : Option ℚ → JVal
  | some q => .num q
  | none => .null

/-- `ClassificationAgent.process`.  The hint path is
`CLASSIFY_HINT.format(hint=...)`; that template's literal JSON braces are
not escaped, so `str.format` raises `KeyError` whenever the hint path is
taken. -/
def classificationProcess (o : ClassOracle) (s : WorkflowState) :
    Except String Update := do
  let doc_id := s.document_id
  let (context, hint) :=
    match s.vision_result with
    | some v => (v.extracted_text, v.structured_data)
    | none => (s.context_for_next_agent, [])
  let similar := o.search (if !context.isEmpty then context.take 500 else doc_id)
  let similarTxt := fmtSimilar similar
  let useHint := jTruthy (jget hint "category_hint") ∧ jNotNone (jget hint "amount") = true
  if useHint then
    .error "KeyError"
  else
    let c₀ ← classifyE o doc_id context CLASSIFY_FULL similarTxt
    let classification :=
      if !context.isEmpty then
        match o.add doc_id (context.take 4000)
            [("category", .str c₀.category.value), ("amount", amountMeta c₀.amount),
             ("document_id", .str doc_id)] with
        | .ok _ => { c₀ with embeddings_added := true }
        | .error _ => c₀
      else c₀
    .ok { classification_result := some classification
          current_step := some "mcp"
          status := some .in_progress
          messages := some (s.messages ++ ["Classification done"]) }

/-! ## MCP / Integration stage (agents/mcp_agent.py) -/

/-- The dict returned by `utils/api_client.post_transaction`, which
catches its own faults and always carries a boolean `success` key. -/
structure ApiResult where
  success : Bool
  payload : List (String × JVal) := []

/-- External collaborators of the integration stage.  `storeDocument` and
`storeTransaction` (`database/sqlite_db.py`) catch internally and return a
boolean; `postTransaction` (`utils/api_client.py`) catches and returns a
dict; `notifyComplete` (`utils/notification.py`) catches and returns a
boolean, `false` when no webhook URL is configured; `storeResult`
(`utils/file_storage.py FileStorage.store_result`) does NOT catch — a
write fault is `.error` and propagates. -/
structure McpOracle where
  storeDocument : String → DocumentType → Option String → Option String → Bool
  storeTransaction : String → ClassificationResult → Bool
  postTransaction : String → ClassificationResult → ApiResult
  storeResult : String → Option VisionResult → Option ClassificationResult →
    List (String × JVal) → Except String String
  notifyComplete : String → String → ProcessingStatus → Option VisionResult →
    Option ClassificationResult → Bool

/-- `MCPAgent.process`. -/
def mcpProcess (o : McpOracle) (s : WorkflowState) : Except String Update :=
  let doc_id := s.document_id
  let (dbOk₁, det₁) :=
    match s.intake_result with
    | some intake =>
      let ok := o.storeDocument doc_id intake.document_type intake.raw_content intake.file_path
      (ok, [("db", JVal.str (if ok then "ok" else "fail"))])
    | none => (false, [])
  let (dbOk, apiOk, det₂) :=
    match s.classification_result with
    | some c =>
      let txOk := o.storeTransaction doc_id c
      let apiRes := o.postTransaction doc_id c
      (dbOk₁ || txOk, apiRes.success,
       det₁ ++ [("api", JVal.obj (("success", .bool apiRes.success) :: apiRes.payload))])
    | none => (dbOk₁, false, det₁)
  let fileStep : Except String (Bool × List (String × JVal)) :=
    if s.vision_result.isSome || s.classification_result.isSome then
      match o.storeResult doc_id s.vision_result s.classification_result
          [("job_id", .str s.job_id)] with
      | .ok path => .ok (true, det₂ ++ [("file", JVal.str path)])
      | .error e => .error e
    else .ok (false, det₂)
  match fileStep with
  | .error e => .error e
  | .ok (fileOk, det₃) =>
    let notifyOk := o.notifyComplete s.job_id doc_id .completed s.vision_result s.classification_result
    .ok { mcp_result := some
            { document_id := doc_id
              database_recorded := dbOk
              file_stored := fileOk
              api_called := apiOk
              notification_sent := notifyOk
              details := det₃ ++ [("notify", JVal.str (if notifyOk then "sent" else "skip"))] }
          current_step := some "summary"
          status := some .in_progress
          messages := some (s.messages ++ ["MCP done"]) }

/-! ## Summary stage (agents/summary_agent.py) -/

def SUMMARY_PROMPT : String :=
  "Generate a concise financial summary for this processed document.\nInclude: transaction category, amount (if any), brief description, and any accounting notes.\n1-3 sentences. Professional tone."

/-- The assembled context string of `SummaryAgent.process` (everything up
to and including the user-prompt prefixing). -/
def summaryContext (s : WorkflowState) : String :=
  let intakeParts :=
    match s.intake_result with
    | some intake =>
      ["Document type: " ++ intake.document_type.value] ++
      (match intake.raw_content with
       | some rc => if rc.isEmpty then [] else ["Content preview: " ++ rc.take 1500 ++ "..."]
       | none => [])
    | none => []
  let visionParts :=
    match s.vision_result with
    | some v => ["Extracted: " ++ v.extracted_text.take 1500 ++ "..."]
    | none => []
  let classParts :=
    match s.classification_result with
    | some c =>
      ["Classified: " ++ c.category.value ++ " | Amount: " ++
        (match c.amount with | some q => pyStr (.num q) | none => "None") ++
        " | Description: " ++
        (match c.description with
         | some d => if d.isEmpty then "N/A" else d
         | none => "N/A")]
    | none => []
  let joined := String.intercalate "\n" (intakeParts ++ visionParts ++ classParts)
  let context := if joined.isEmpty then "No document content." else joined
  let up := s.user_prompt.getD ""
  if up.isEmpty then context else "User request: " ++ up ++ "\n\n" ++ context

/-- `SummaryAgent.process`; `llm sys human` is the model call, whose
`.error` value is `str(e)` of the raised exception. -/
def summaryProcess (llm : String → String → Except String String) (s : WorkflowState) : Update :=
  let summaryText :=
    match llm SUMMARY_PROMPT ((summaryContext s).take 6000) with
    | .ok r => r
    | .error e => "Summary unavailable: " ++ e
  let up := s.user_prompt.getD ""
  { summary_result := some
      { document_id := s.document_id
        financial_summary := summaryText.trim
        user_prompt := if up.isEmpty then none else some up
        metadata := [("steps_completed", .num s.messages.length)] }
    current_step := some "end"
    status := some .completed
    messages := some (s.messages ++ ["Summary done"]) }

/-! ## The two execution modes -/

structure Oracles where
  fs : FileSystem
  vision : VisionOracle
  cls : ClassOracle
  mcp : McpOracle
  summaryLlm : String → String → Except String String

/-- Fresh per-run state (`run_workflow` initial dict /
`run_workflow_sync`'s `WorkflowState(...)`).  The graph state has no
`user_prompt` field, so graph-mode runs pass `none`. -/
def initState (job document_id : String) (dt : DocumentType)
    (fp rc up : Option String) : WorkflowState :=
  { job_id := job, document_id, file_path := fp, raw_content := rc,
    document_type := dt, user_prompt := up }

/-- Graph-driven mode (`orchestrator.create_graph` wiring): intake, the
conditional `_after_intake` edge, then vision → classification → mcp →
END.  Each node merges the agent's partial update into the shared state;
an uncaught agent exception aborts `ainvoke`. -/
def runGraph (o : Oracles) (s₀ : WorkflowState) : Except String WorkflowState := do
  let s₁ := applyUpdate s₀ (intakeProcess o.fs s₀)
  let s₂ :=
    if afterIntake s₁ = "vision" then applyUpdate s₁ (visionProcess o.vision s₁)
    else s₁
  let u₃ ← classificationProcess o.cls s₂
  let s₃ := applyUpdate s₂ u₃
  let u₄ ← mcpProcess o.mcp s₃
  .ok (applyUpdate s₃ u₄)

/-- Tail of the sequential runner after the failure checks:
classification → mcp → summary, unconditionally. -/
def seqTail (o : Oracles) (s : WorkflowState) : Except String WorkflowState := do
  let u₁ ← classificationProcess o.cls s
  let s₁ := applyUpdate s u₁
  let u₂ ← mcpProcess o.mcp s₁
  let s₂ := applyUpdate s₁ u₂
  .ok (applyUpdate s₂ (summaryProcess o.summaryLlm s₂))

/-- Sequential mode (`workflow_runner.run_workflow_sync`): intake, early
return on `failed`; vision only when routed there, early return on
`failed`; then classification, mcp, summary with no further checks. -/
def runSeq (o : Oracles) (job document_id : String) (dt : DocumentType)
    (fp rc up : Option String) : Except String WorkflowState :=
  let s₀ := initState job document_id dt fp rc up
  let s₁ := applyUpdate s₀ (intakeProcess o.fs s₀)
  if s₁.status = .failed then .ok s₁
  else if s₁.current_step = "vision" then
    let s₂ := applyUpdate s₁ (visionProcess o.vision s₁)
    if s₂.status = .failed then .ok s₂ else seqTail o s₂
  else seqTail o s₁

/-! ## API submission entrypoint (api/routes.py `submit`) -/

structure WorkflowRequest where
  document_id : Option String := none
  document_type : DocumentType := .text
  content : Option String := none
  file_path : Option String := none
  user_prompt : Option String := none

structure WorkflowResponse where
  job_id : String
  document_id : String
  status : ProcessingStatus
  intake_result : Option IntakeResult := none
  vision_result : Option VisionResult := none
  classification_result : Option ClassificationResult := none
  mcp_result : Option MCPActionResult := none
  error : Option String := none

/-- `_state_to_response`. -/
def stateToResponse (st : WorkflowState) : WorkflowResponse :=
  { job_id := st.job_id
    document_id := st.document_id
    status := st.status
    intake_result := st.intake_result
    vision_result := st.vision_result
    classification_result := st.classification_result
    mcp_result := st.mcp_result
    error := st.error }

/-- The `submit` route.  `genId` stands in for `str(uuid.uuid4())`, `job`
for the run's generated job id.  An `HTTPException(400, msg)` is the
`.error (400, msg)` value; a workflow exception is caught and turned into
a failed `WorkflowResponse`. -/
def submitReq (o : Oracles) (genId job : String) (req : WorkflowRequest) :
    Except (Nat × String) WorkflowResponse :=
  let doc_id :=
    match req.document_id with
    | some d => if d.isEmpty then genId else d
    | none => genId
  if ¬optTruthy req.content ∧ ¬optTruthy req.file_path then
    .error (400, "content or file_path required")
  else if optTruthy req.file_path ∧ ¬o.fs.pathExists (req.file_path.getD "") then
    .error (400, "File not found: " ++ req.file_path.getD "")
  else
    match runGraph o (initState job doc_id req.document_type req.file_path req.content none) with
    | .ok st => .ok (stateToResponse st)
    | .error e => .ok { job_id := job, document_id := doc_id, status := .failed, error := some e }

/-! ## Concrete fixtures used by witnesses and counterexamples -/

/-- Oracles in which every external collaborator is unavailable but none
of them faults uncaught: no files exist, every model call raises (and is
caught by the stages), the stores report failure, no webhook URL is set,
and the archival write succeeds. -/
def benignO : Oracles :=
  { fs := { pathExists := fun _ => false, readText := fun _ => "",
            extractPdf := fun _ => .ok ("", 0) }
    vision := { ocr := fun _ => ("", 0), llm := fun _ => .error "no llm",
                parseJson := fun _ => none }
    cls := { search := fun _ => [], llm := fun _ => .error "no llm",
             parseJson := fun _ => none, add := fun _ _ _ => .error "store down" }
    mcp := { storeDocument := fun _ _ _ _ => false, storeTransaction := fun _ _ => false,
             postTransaction := fun _ _ => { success := false },
             storeResult := fun _ _ _ _ => .ok "out.json",
             notifyComplete := fun _ _ _ _ _ => false }
    summaryLlm := fun _ _ => .error "no llm" }

/-- A file system on which every path exists and a text read yields a
fixed marker distinct from the inline content used alongside it. -/
def bothFs : FileSystem :=
  { pathExists := fun _ => true, readText := fun _ => "FILE-CONTENT",
    extractPdf := fun _ => .ok ("FILE-CONTENT", 1) }

/-- A record with both inline content and a file reference populated. -/
def bothState : WorkflowState :=
  { job_id := "j", document_id := "d", document_type := .text,
    raw_content := some "INLINE", file_path := some "doc.txt" }

/-- An image submission whose file exists. -/
def imgState : WorkflowState := initState "j" "d" .image (some "a.png") none none

/-- A pdf submission whose file does not exist under `benignO.fs`. -/
def missingPdfState : WorkflowState := initState "j" "d" .pdf (some "missing.pdf") none none

/-- Vision oracle whose OCR engine yields nothing. -/
def ocrFailVision : VisionOracle :=
  { ocr := fun _ => ("", 0), llm := fun _ => .error "no llm", parseJson := fun _ => none }

/-- State after Intake of `imgState` on `bothFs`. -/
def imgAfterIntake : WorkflowState := applyUpdate imgState (intakeProcess bothFs imgState)

/-- State after the Vision stage then fails on `imgAfterIntake` with an
empty OCR result. -/
def imgAfterVision : WorkflowState :=
  applyUpdate imgAfterIntake (visionProcess ocrFailVision imgAfterIntake)

/-- Integration oracle whose archival file write faults. -/
def badFileMcp : McpOracle :=
  { storeDocument := fun _ _ _ _ => false, storeTransaction := fun _ _ => false,
    postTransaction := fun _ _ => { success := false },
    storeResult := fun _ _ _ _ => .error "disk full",
    notifyComplete := fun _ _ _ _ _ => false }

/-- Integration oracle whose relational store fails, webhook is unset,
and the file write succeeds. -/
def storeFailMcp : McpOracle :=
  { storeDocument := fun _ _ _ _ => false, storeTransaction := fun _ _ => false,
    postTransaction := fun _ _ => { success := false },
    storeResult := fun _ _ _ _ => .ok "out.json",
    notifyComplete := fun _ _ _ _ _ => false }

/-- A state carrying a classification result into the Integration stage. -/
def classifiedState : WorkflowState :=
  { job_id := "j", document_id := "d",
    classification_result := some { document_id := "d", category := .expense } }

/-- The update `classificationProcess benignO.cls` returns on the fresh
no-input state: model call fails, parse-error fallback, empty context so
no vector indexing. -/
def benignClassifyUpdate : Update :=
  { classification_result := some
      { document_id := "d", category := .unknown, description := some "",
        confidence := 0, reasoning := some "parse err" }
    current_step := some "mcp"
    status := some .in_progress
    messages := some ["Classification done"] }

/-- The update `mcpProcess storeFailMcp` returns on `classifiedState`:
store and webhook report failure, the archival write succeeds. -/
def storeFailUpdate : Update :=
  { mcp_result := some
      { document_id := "d", database_recorded := false, file_stored := true,
        api_called := false, notification_sent := false,
        details := [("api", JVal.obj [("success", JVal.bool false)]),
                    ("file", JVal.str "out.json"), ("notify", JVal.str "skip")] }
    current_step := some "summary"
    status := some .in_progress
    messages := some ["MCP done"] }

def wSumLlm : String → String → Except String String := fun _ _ => .error "boom"

def wSumState : WorkflowState := { job_id := "j", document_id := "d" }

def allCategories : List TransactionCategory :=
  [.revenue, .expense, .asset, .liability, .equity, .unknown]

def categoryStrings : List String :=
  ["revenue", "expense", "asset", "liability", "equity", "unknown"]

/-! ## Helper lemmas -/

theorem except_bind_ok {ε α β : Type} {x : Except ε α} {f : α → Except ε β} {b : β}
    (h : x >>= f = .ok b) : ∃ a, x = .ok a ∧ f a = .ok b := by
  cases x with
  | error e =>
    simp only [bind, Except.bind] at h
    exact Except.noConfusion h
  | ok a => exact ⟨a, rfl, h⟩

theorem afterIntake_spec (t : WorkflowState) :
    (t.status = ProcessingStatus.failed → afterIntake t = "classification") ∧
    (t.status ≠ ProcessingStatus.failed →
      ((∃ ir, t.intake_result = some ir ∧ ir.requires_vision = true) ↔ afterIntake t = "vision") ∧
      ((∀ ir, t.intake_result = some ir → ir.requires_vision = false) →
        afterIntake t = "classification")) := by
  refine ⟨fun hf => ?_, fun hnf => ⟨?_, ?_⟩⟩
  · simp [afterIntake, hf]
  · cases hir : t.intake_result with
    | none => simp [afterIntake, hnf, hir]
    | some ir =>
      cases hrv : ir.requires_vision with
      | false => simp [afterIntake, hnf, hir, hrv]
      | true => simp [afterIntake, hnf, hir, hrv]
  · intro hall
    cases hir : t.intake_result with
    | none => simp [afterIntake, hnf, hir]
    | some ir => simp [afterIntake, hnf, hir, hall ir hir]

/-! ## Claim theorems -/

/-- C1: Branch rule after Intake: for every state produced by the Intake
stage, the routing function selects `classification` when the status is
`failed`; otherwise it selects `vision` iff the intake result's
`requires_vision` flag is true, and `classification` when
`requires_vision` is false or the intake result is absent. -/
theorem branch_rule_after_intake (fs : FileSystem) (s t : WorkflowState)
    (_ht : t = applyUpdate s (intakeProcess fs s)) :
    (t.status = ProcessingStatus.failed → afterIntake t = "classification") ∧
    (t.status ≠ ProcessingStatus.failed →
      ((∃ ir, t.intake_result = some ir ∧ ir.requires_vision = true) ↔ afterIntake t = "vision") ∧
      ((∀ ir, t.intake_result = some ir → ir.requires_vision = false) →
        afterIntake t = "classification")) :=
  afterIntake_spec t

theorem branch_rule_after_intake_witness :
    afterIntake imgAfterIntake = "vision" := by
  have h := branch_rule_after_intake bothFs imgState imgAfterIntake rfl
  exact (h.2 (by decide)).1.mp ⟨_, rfl, rfl⟩

/-- C10: user_prompt noninterference: two records differing only in
`user_prompt` produce identical stage results at Intake, Vision,
Classification and Integration (given identical external collaborator
responses); only the Summary stage reads `user_prompt`. -/
theorem user_prompt_noninterference (co : ClassOracle) (fs : FileSystem)
    (vo : VisionOracle) (mo : McpOracle) (s : WorkflowState) (p : Option String) :
    classificationProcess co { s with user_prompt := p } = classificationProcess co s ∧
    intakeProcess fs { s with user_prompt := p } = intakeProcess fs s ∧
    visionProcess vo { s with user_prompt := p } = visionProcess vo s ∧
    mcpProcess mo { s with user_prompt := p } = mcpProcess mo s := by
  cases s
  exact ⟨rfl, rfl, rfl, rfl⟩

/-- C8: Summary stage terminal behavior: for every input state the
Summary update sets `current_step` to `end` and status to `completed`,
and when the model call fails the summary text degrades to the literal
`Summary unavailable: <error>` string instead of failing the run. -/
theorem summary_terminal (llm : String → String → Except String String) (s : WorkflowState) :
    (summaryProcess llm s).current_step = some "end" ∧
    (summaryProcess llm s).status = some ProcessingStatus.completed ∧
    ∀ e, llm SUMMARY_PROMPT ((summaryContext s).take 6000) = .error e →
      ∃ sr, (summaryProcess llm s).summary_result = some sr ∧
        sr.financial_summary = ("Summary unavailable: " ++ e).trim := by
  refine ⟨rfl, rfl, fun e he => ⟨_, rfl, ?_⟩⟩
  simp only [summaryProcess, he]

theorem summary_terminal_witness :
    (summaryProcess wSumLlm wSumState).current_step = some "end" ∧
    (summaryProcess wSumLlm wSumState).status = some ProcessingStatus.completed ∧
    ∃ sr, (summaryProcess wSumLlm wSumState).summary_result = some sr ∧
      sr.financial_summary = ("Summary unavailable: " ++ "boom").trim :=
  ⟨(summary_terminal wSumLlm wSumState).1, (summary_terminal wSumLlm wSumState).2.1,
   (summary_terminal wSumLlm wSumState).2.2 "boom" rfl⟩

/-- C6: Category closure: every Classification output's category is one
of the six fixed enum values; the model's category string is lowercased
and matched exactly against the fixed set, anything unrecognized
(including the parse-failure fallback) maps to `unknown`. -/
theorem category_closure :
    (∀ (o : ClassOracle) (did content prompt similar : String) (r : ClassificationResult),
        classifyE o did content prompt similar = .ok r → r.category ∈ allCategories) ∧
    (∀ (c : TransactionCategory) (s : String), s.isEmpty = false → pyLower s = c.value →
        (categoryVal (some (.str s))).map matchCat = .ok c) ∧
    (∀ s : String, pyLower s ∉ categoryStrings →
        (categoryVal (some (.str s))).map matchCat = .ok TransactionCategory.unknown) ∧
    (categoryVal (jget (defaultClassifyData "") "category")).map matchCat =
      .ok TransactionCategory.unknown := by
  refine ⟨fun o did content prompt similar r _ => ?_, fun c s hne hlow => ?_, fun s hnot => ?_, rfl⟩
  · cases r.category <;> simp [allCategories]
  · simp only [categoryVal, hne, Bool.false_eq_true, if_false, Except.map, hlow]
    cases c <;> rfl
  · by_cases he : s.isEmpty
    · simp only [categoryVal, he, if_true, Except.map]
      rfl
    · simp only [categoryVal, he, if_false, Except.map, Bool.false_eq_true]
      have h₁ : pyLower s ≠ "revenue" := fun h => hnot (by rw [h]; decide)
      have h₂ : pyLower s ≠ "expense" := fun h => hnot (by rw [h]; decide)
      have h₃ : pyLower s ≠ "asset" := fun h => hnot (by rw [h]; decide)
      have h₄ : pyLower s ≠ "liability" := fun h => hnot (by rw [h]; decide)
      have h₅ : pyLower s ≠ "equity" := fun h => hnot (by rw [h]; decide)
      simp [matchCat, h₁, h₂, h₃, h₄, h₅]

theorem category_closure_witness :
    (categoryVal (some (.str "EXPENSE"))).map matchCat = .ok TransactionCategory.expense ∧
    (categoryVal (some (.str "Misc-Label"))).map matchCat = .ok TransactionCategory.unknown ∧
    ∀ r, classifyE benignO.cls "d" "ctx" CLASSIFY_FULL "" = .ok r → r.category ∈ allCategories :=
  ⟨category_closure.2.1 .expense "EXPENSE" (by decide) (by decide),
   category_closure.2.2.1 "Misc-Label" (by decide),
   fun r h => category_closure.1 benignO.cls "d" "ctx" CLASSIFY_FULL "" r h⟩

/-- C7: Amount parsing in Classification: numeric model values pass
through; string values are scanned for the first numeric substring after
comma-stripping and parsed as a float, or yield null if none is found;
non-numeric non-string values yield null; `"1,234.50"` parses to 1234.5,
`"N/A"` to null, `42` to 42.0, and null stays null. -/
theorem amount_parsing :
    (∀ q : ℚ, parseAmount (some (.num q)) = some q) ∧
    (∀ s : String, (∀ c ∈ stripCommas s, c.isDigit = false) →
        parseAmount (some (.str s)) = none) ∧
    (parseAmount none = none ∧ parseAmount (some .null) = none) ∧
    (∀ xs, parseAmount (some (.arr xs)) = none) ∧
    (∀ kvs, parseAmount (some (.obj kvs)) = none) ∧
    (parseAmount (some (.str "1,234.50")) = some (2469 / 2) ∧
     parseAmount (some (.str "N/A")) = none ∧
     parseAmount (some (.num 42)) = some 42) := by
  have scan_none : ∀ cs : List Char, (∀ c ∈ cs, c.isDigit = false) → scanNumeric cs = none := by
    intro cs h
    induction cs with
    | nil => rfl
    | cons c rest ih =>
      simp only [scanNumeric, h c (List.mem_cons_self c rest), Bool.false_eq_true, if_false]
      exact ih fun x hx => h x (List.mem_cons_of_mem c hx)
  have hex : parseAmount (some (.str "1,234.50")) = some (2469 / 2) := by
    have h₁ : parseAmount (some (.str "1,234.50")) =
        some (matchedToRat ['1', '2', '3', '4'] ['5', '0']) := rfl
    have h₂ : digitsToNat ['1', '2', '3', '4'] = 1234 := rfl
    have h₃ : digitsToNat ['5', '0'] = 50 := rfl
    rw [h₁, matchedToRat, h₂, h₃]
    norm_num
  refine ⟨fun q => rfl, fun s h => ?_, ⟨rfl, rfl⟩, fun xs => rfl, fun kvs => rfl,
    hex, rfl, rfl⟩
  simp only [parseAmount, scanAmount, scan_none (stripCommas s) h]

theorem amount_parsing_witness :
    parseAmount (some (.str "N/A")) = none ∧ parseAmount (some (.num 42)) = some 42 :=
  ⟨amount_parsing.2.1 "N/A" (by decide), amount_parsing.1 42⟩

/-- C5 counterexample: with both inline content and an existing file
populated on a text-type record, Intake keeps the inline content; the
file's text (`FILE-CONTENT`) does not become the intake result's
content, so the file reference does not take precedence. -/
theorem intake_precedence_cex :
    (intakeProcess bothFs bothState).intake_result.map (fun ir => ir.raw_content) =
      some (some "INLINE") ∧
    bothFs.readText "doc.txt" = "FILE-CONTENT" ∧
    bothFs.pathExists "doc.txt" = true ∧
    ("INLINE" : String) ≠ "FILE-CONTENT" :=
  ⟨rfl, rfl, rfl, by decide⟩

/-- C5 amended: when both inline content and a file reference are
populated, inline content takes precedence for text-type records (the
file is never consulted); for non-text records the inline content is
ignored entirely — the stage behaves identically with it removed. -/
theorem intake_precedence_amended :
    (∀ (fs : FileSystem) (s : WorkflowState),
       optTruthy s.raw_content = true → s.document_type = .text →
       ∃ ir, (intakeProcess fs s).intake_result = some ir ∧ ir.raw_content = s.raw_content) ∧
    (∀ (fs : FileSystem) (s : WorkflowState) (rc : Option String),
       s.document_type ≠ .text →
       intakeProcess fs { s with raw_content := rc } = intakeProcess fs s) := by
  constructor
  · intro fs s h₁ h₂
    simp only [intakeProcess, h₁, h₂, and_self, if_true, intakeSuccess]
    exact ⟨_, rfl, rfl⟩
  · intro fs s rc hdt
    cases s
    simp only [intakeProcess]
    rw [if_neg (fun h => hdt h.2)]
    conv_rhs => rw [if_neg (fun h => hdt h.2)]
    rfl

theorem intake_precedence_amended_witness :
    (∃ ir, (intakeProcess bothFs bothState).intake_result = some ir ∧
       ir.raw_content = bothState.raw_content) ∧
    intakeProcess bothFs { imgState with raw_content := some "INLINE" } =
      intakeProcess bothFs imgState :=
  ⟨intake_precedence_amended.1 bothFs bothState rfl rfl,
   intake_precedence_amended.2 bothFs imgState (some "INLINE") (by decide)⟩

/-- C3 counterexample: a no-input submission is rejected by the API with
an HTTP 400 before any run starts (no failed record is produced), and a
sequential run started directly with neither content nor file does not
fail: it completes with the intake result slot populated. -/
theorem no_input_run_cex :
    submitReq benignO "g" "j" {} = .error (400, "content or file_path required") ∧
    (runSeq benignO "j" "d" .text none none none).toOption.map WorkflowState.status =
      some ProcessingStatus.completed ∧
    (runSeq benignO "j" "d" .text none none none).toOption.map
      (fun s => s.intake_result.isSome) = some true :=
  ⟨rfl, rfl, rfl⟩

/-- C3 amended: a submission with neither inline content nor a file
reference is rejected at the entrypoint with error 400 and the message
`content or file_path required`, before any run starts, so no record
(and no result slot) is produced; the Intake stage itself does not fail
on empty input — it returns an in-progress update whose intake result
has null content and no error. -/
theorem no_input_amended :
    (∀ (o : Oracles) (genId job : String) (req : WorkflowRequest),
       optTruthy req.content = false → optTruthy req.file_path = false →
       submitReq o genId job req = .error (400, "content or file_path required")) ∧
    (∀ (fs : FileSystem) (s : WorkflowState),
       optTruthy s.raw_content = false → optTruthy s.file_path = false →
       (intakeProcess fs s).status = some ProcessingStatus.in_progress ∧
       (intakeProcess fs s).error = none ∧
       ∃ ir, (intakeProcess fs s).intake_result = some ir ∧
         ir.raw_content = none ∧ ir.requires_vision = false) := by
  constructor
  · intro o genId job req h₁ h₂
    simp [submitReq, h₁, h₂]
  · intro fs s h₁ h₂
    refine ⟨?_, ?_, ?_⟩ <;>
      simp only [intakeProcess, h₁, h₂, Bool.false_eq_true, false_and, if_false,
        intakeSuccess]
    exact ⟨_, rfl, rfl, rfl⟩

theorem no_input_amended_witness :
    submitReq benignO "g" "j" {} = .error (400, "content or file_path required") ∧
    ((intakeProcess benignO.fs (initState "j" "d" .text none none none)).status =
       some ProcessingStatus.in_progress ∧
     (intakeProcess benignO.fs (initState "j" "d" .text none none none)).error = none ∧
     ∃ ir, (intakeProcess benignO.fs (initState "j" "d" .text none none none)).intake_result =
         some ir ∧ ir.raw_content = none ∧ ir.requires_vision = false) :=
  ⟨no_input_amended.1 benignO "g" "j" {} rfl rfl,
   no_input_amended.2 benignO.fs (initState "j" "d" .text none none none) rfl rfl⟩

/-- C2 counterexample: in the graph-driven mode a failed Intake is not
terminal for the status field: on a missing-file pdf submission the
intake-merged state has status `failed`, yet the final graph state has
status `in_progress` (the error message survives, the status does not). -/
theorem failed_regresses_in_graph_cex :
    (applyUpdate missingPdfState (intakeProcess benignO.fs missingPdfState)).status =
      ProcessingStatus.failed ∧
    (runGraph benignO missingPdfState).toOption.map WorkflowState.status =
      some ProcessingStatus.in_progress ∧
    (runGraph benignO missingPdfState).toOption.map WorkflowState.error =
      some (some "File not found: missing.pdf") :=
  ⟨rfl, rfl, rfl⟩

/-- C2 amended: `failed` is terminal in the sequential runner, which
returns immediately at its failed checks after Intake and after Vision;
in the graph-driven mode Classification and Integration still execute
after a failed Intake and their updates unconditionally set status to
`in_progress`, so the record's status regresses from `failed` to
`in_progress` there (only the error field survives). -/
theorem failed_terminal_amended :
    (∀ (o : Oracles) (job did : String) (dt : DocumentType) (fp rc up : Option String)
       (s₁ : WorkflowState),
       s₁ = applyUpdate (initState job did dt fp rc up)
              (intakeProcess o.fs (initState job did dt fp rc up)) →
       s₁.status = ProcessingStatus.failed →
       runSeq o job did dt fp rc up = .ok s₁) ∧
    (∀ (o : Oracles) (job did : String) (dt : DocumentType) (fp rc up : Option String)
       (s₁ s₂ : WorkflowState),
       s₁ = applyUpdate (initState job did dt fp rc up)
              (intakeProcess o.fs (initState job did dt fp rc up)) →
       s₁.status ≠ ProcessingStatus.failed →
       s₁.current_step = "vision" →
       s₂ = applyUpdate s₁ (visionProcess o.vision s₁) →
       s₂.status = ProcessingStatus.failed →
       runSeq o job did dt fp rc up = .ok s₂) ∧
    (∀ (co : ClassOracle) (s : WorkflowState) (u : Update),
       classificationProcess co s = .ok u →
       u.status = some ProcessingStatus.in_progress ∧
       (applyUpdate s u).status = ProcessingStatus.in_progress) ∧
    (∀ (mo : McpOracle) (s : WorkflowState) (u : Update),
       mcpProcess mo s = .ok u →
       u.status = some ProcessingStatus.in_progress ∧
       (applyUpdate s u).status = ProcessingStatus.in_progress) := by
  refine ⟨?_, ?_, ?_, ?_⟩
  · intro o job did dt fp rc up s₁ hs₁ hfail
    subst hs₁
    simp only [runSeq]
    rw [if_pos hfail]
  · intro o job did dt fp rc up s₁ s₂ hs₁ hnf hstep hs₂ hfail
    subst hs₁; subst hs₂
    simp only [runSeq]
    rw [if_neg hnf, if_pos hstep, if_pos hfail]
  · intro co s u h
    simp only [classificationProcess] at h
    split at h
    · exact Except.noConfusion h
    · obtain ⟨c, hc, hu⟩ := except_bind_ok h
      simp only [Except.ok.injEq] at hu
      subst hu
      exact ⟨rfl, rfl⟩
  · intro mo s u h
    simp only [mcpProcess] at h
    split at h
    · exact Except.noConfusion h
    · simp only [Except.ok.injEq] at h
      subst h
      exact ⟨rfl, rfl⟩

theorem failed_terminal_amended_witness :
    runSeq benignO "j" "d" .pdf (some "missing.pdf") none none =
      .ok (applyUpdate (initState "j" "d" .pdf (some "missing.pdf") none none)
            (intakeProcess benignO.fs (initState "j" "d" .pdf (some "missing.pdf") none none))) ∧
    benignClassifyUpdate.status = some ProcessingStatus.in_progress :=
  ⟨failed_terminal_amended.1 benignO "j" "d" .pdf (some "missing.pdf") none none _ rfl rfl,
   (failed_terminal_amended.2.2.1 benignO.cls (initState "j" "d" .text none none none)
      benignClassifyUpdate rfl).1⟩

/-- C4 counterexample: the archival file write of the Integration stage
does not catch its own faults: with the writer faulting and a
classification result present, `MCPAgent.process` raises instead of
returning an aggregated result, aborting the stage. -/
theorem integration_file_fault_cex :
    mcpProcess badFileMcp classifiedState = .error "disk full" := rfl

/-- C4 amended: the relational-store, external-API and webhook effects
each catch their own faults and report boolean outcomes, but the archival
file write does not — its fault propagates out of the stage.  Whenever
the file write succeeds or is skipped the stage returns normally, and
with the store failing and no webhook configured the result has
`database_recorded = false` and `notification_sent = false` while the
status update is `in_progress` regardless of the sub-effect failures. -/
theorem integration_resilience_amended :
    (∀ (o : McpOracle) (s : WorkflowState),
       (s.vision_result = none ∧ s.classification_result = none) ∨
         (∃ p, o.storeResult s.document_id s.vision_result s.classification_result
                 [("job_id", .str s.job_id)] = .ok p) →
       (mcpProcess o s).isOk = true) ∧
    (∀ (o : McpOracle) (s : WorkflowState) (u : Update),
       (∀ a b c d, o.storeDocument a b c d = false) →
       (∀ a c, o.storeTransaction a c = false) →
       (∀ a b st v c, o.notifyComplete a b st v c = false) →
       mcpProcess o s = .ok u →
       ∃ r, u.mcp_result = some r ∧ r.database_recorded = false ∧
         r.notification_sent = false ∧ u.status = some ProcessingStatus.in_progress) := by
  constructor
  · intro o s h
    rcases h with ⟨hv, hc⟩ | ⟨p, hp⟩
    · simp [mcpProcess, hv, hc, Except.isOk, Except.toBool]
    · cases hcond : (s.vision_result.isSome || s.classification_result.isSome) <;>
        simp [mcpProcess, hp, hcond, Except.isOk, Except.toBool]
  · intro o s u hdb htx hnot h
    cases hI : s.intake_result <;> cases hC : s.classification_result <;>
      simp only [mcpProcess, hdb, htx, hnot, hI, hC, Bool.false_or, Bool.or_false] at h <;>
      split at h <;>
      first
        | exact Except.noConfusion h
        | (simp only [Except.ok.injEq] at h
           subst h
           exact ⟨_, rfl, rfl, rfl, rfl⟩)

theorem integration_resilience_amended_witness :
    (mcpProcess storeFailMcp classifiedState).isOk = true ∧
    ∃ r, storeFailUpdate.mcp_result = some r ∧ r.database_recorded = false ∧
      r.notification_sent = false ∧ storeFailUpdate.status = some ProcessingStatus.in_progress :=
  ⟨integration_resilience_amended.1 storeFailMcp classifiedState (.inr ⟨"out.json", rfl⟩),
   integration_resilience_amended.2 storeFailMcp classifiedState storeFailUpdate
     (fun _ _ _ _ => rfl) (fun _ _ => rfl) (fun _ _ _ _ _ => rfl) rfl⟩

/-- C9 counterexample: a genuinely executed Vision stage can leave the
message log unchanged: on an image whose OCR yields nothing, the routing
after Intake selects vision, the Vision stage fails with `No content`,
and its update carries no messages entry — the merged log still has
exactly the one Intake entry. -/
theorem vision_failure_no_message_cex :
    afterIntake imgAfterIntake = "vision" ∧
    imgAfterIntake.messages = ["Intake done"] ∧
    (visionProcess ocrFailVision imgAfterIntake).status = some ProcessingStatus.failed ∧
    imgAfterVision.messages = ["Intake done"] :=
  ⟨rfl, rfl, rfl, rfl⟩

/-- C9 amended: every stage's update appends exactly one entry to the
message log — except the Vision stage's two failure returns (missing
intake result, no content), whose updates carry no messages entry and
leave the log unchanged; the log never shrinks in any case. -/
theorem message_growth_amended (fs : FileSystem) (vo : VisionOracle) (co : ClassOracle)
    (mo : McpOracle) (llm : String → String → Except String String) (s : WorkflowState) :
    (∃ m, (applyUpdate s (intakeProcess fs s)).messages = s.messages ++ [m]) ∧
    ((applyUpdate s (visionProcess vo s)).messages = s.messages ++ ["Vision done"] ∨
      ((applyUpdate s (visionProcess vo s)).messages = s.messages ∧
       (visionProcess vo s).status = some ProcessingStatus.failed)) ∧
    (∀ u, classificationProcess co s = .ok u →
       (applyUpdate s u).messages = s.messages ++ ["Classification done"]) ∧
    (∀ u, mcpProcess mo s = .ok u →
       (applyUpdate s u).messages = s.messages ++ ["MCP done"]) ∧
    (applyUpdate s (summaryProcess llm s)).messages = s.messages ++ ["Summary done"] := by
  refine ⟨?_, ?_, ?_, ?_, rfl⟩
  · have h : ∃ m, (intakeProcess fs s).messages = some (s.messages ++ [m]) := by
      unfold intakeProcess
      repeat' split
      all_goals first
        | exact ⟨"Intake done", rfl⟩
        | exact ⟨"Intake failed", rfl⟩
    obtain ⟨m, hm⟩ := h
    exact ⟨m, by simp [applyUpdate, mergeField, hm]⟩
  · cases hI : s.intake_result with
    | none =>
      right
      exact ⟨by simp [applyUpdate, mergeField, visionProcess, hI], by simp [visionProcess, hI]⟩
    | some intake =>
      simp only [visionProcess, hI]
      split
      · split
        · right
          exact ⟨by simp [applyUpdate, mergeField], rfl⟩
        · left
          simp [applyUpdate, mergeField]
      · split
        · right
          exact ⟨by simp [applyUpdate, mergeField], rfl⟩
        · left
          simp [applyUpdate, mergeField]
  · intro u h
    simp only [classificationProcess] at h
    split at h
    · exact Except.noConfusion h
    · obtain ⟨c, hc, hu⟩ := except_bind_ok h
      simp only [Except.ok.injEq] at hu
      subst hu
      rfl
  · intro u h
    simp only [mcpProcess] at h
    split at h
    · exact Except.noConfusion h
    · simp only [Except.ok.injEq] at h
      subst h
      rfl

theorem message_growth_amended_witness :
    (∃ m, (applyUpdate imgState (intakeProcess bothFs imgState)).messages =
        imgState.messages ++ [m]) ∧
    (applyUpdate (initState "j" "d" .text none none none) benignClassifyUpdate).messages =
      (initState "j" "d" .text none none none).messages ++ ["Classification done"] :=
  ⟨(message_growth_amended bothFs ocrFailVision benignO.cls benignO.mcp benignO.summaryLlm
      imgState).1,
   (message_growth_amended benignO.fs ocrFailVision benignO.cls benignO.mcp benignO.summaryLlm
      (initState "j" "d" .text none none none)).2.2.1 benignClassifyUpdate rfl⟩

end AutoClose
